import Mathlib

/-!
Verification of the Junction cycle engine and Channel state machine of
src/extensions/io/src/module.c (the kernel I/O multiplexing extension).

The state of a Channel is embedded as a record of the fields the engine
manipulates: the state/delta words of the qualification lattice, the
per-cycle events word, the window, the loaned resource, the owning
Junction, and the transfer-list linkage.  The bit-level layout of the
state word lives in module.h which is not part of src/; the decomposition
used here (internal/external qualifications teq_transfer/teq_terminate
plus the ctl_* control flags) is taken from the spec's qualification
lattice and from the decomposition printed by ptransit (module.c lines
1331-1340).
-/

namespace IOCore

/-- The two event qualifications of the lattice: teq_transfer and
teq_terminate (module.c uses these names throughout). -/
inductive Teq
  | transfer
  | terminate
deriving DecidableEq

/-- A state or delta word: internal (I) and external (X) qualifications for
transfer/terminate plus the control flags ctl_connect, ctl_force,
ctl_requeue, ctl_polarity.  Modelled from the spec: the 8-bit `state` and
`delta` words of module.h (not in src/) hold the qualification lattice and
the control flags; ptransit (module.c 1331-1340) shows this decomposition. -/
structure Word where
  itransfer : Bool := false
  iterminate : Bool := false
  xtransfer : Bool := false
  xterminate : Bool := false
  connect : Bool := false
  cforce : Bool := false
  requeue : Bool := false
  polarity : Bool := false
deriving DecidableEq

/-- The all-clear word (a zero state/delta byte). -/
def Word.zero : Word := {}

/-- Channel_IQualify: set an internal qualification bit. -/
def Word.setI : Word → Teq → Word
  | w, .transfer => { w with itransfer := true }
  | w, .terminate => { w with iterminate := true }

/-- Channel_INQualify: clear an internal qualification bit. -/
def Word.clearI : Word → Teq → Word
  | w, .transfer => { w with itransfer := false }
  | w, .terminate => { w with iterminate := false }

/-- Channel_XQualify: set an external qualification bit. -/
def Word.setX : Word → Teq → Word
  | w, .transfer => { w with xtransfer := true }
  | w, .terminate => { w with xterminate := true }

/-- Channel_XNQualify: clear an external qualification bit. -/
def Word.clearX : Word → Teq → Word
  | w, .transfer => { w with xtransfer := false }
  | w, .terminate => { w with xterminate := false }

/-- Channel_StateMerge (module.c 3810): bitwise OR of the delta word into
the state word. -/
def Word.merge (a b : Word) : Word :=
  { itransfer := a.itransfer || b.itransfer
    iterminate := a.iterminate || b.iterminate
    xtransfer := a.xtransfer || b.xtransfer
    xterminate := a.xterminate || b.xterminate
    connect := a.connect || b.connect
    cforce := a.cforce || b.cforce
    requeue := a.requeue || b.requeue
    polarity := a.polarity || b.polarity }

/-- The per-cycle events word: tev_transfer and tev_terminate. -/
structure Events where
  transfer : Bool := false
  terminate : Bool := false
deriving DecidableEq

/-- A Channel of the engine, restricted to the fields module.c manipulates.
`lltransfer` is the boolean shadow of the next_transfer pointer (true iff
the pointer is non-NULL); `resource` records the size of the loaned buffer
when one is held; `junction` is the id of the owning Junction (NULL when
detached); `portLatched` is Channel_PortLatched of the owned Port. -/
structure Chan where
  cid : Nat
  state : Word := {}
  delta : Word := {}
  events : Events := {}
  windowStart : Nat := 0
  windowStop : Nat := 0
  resource : Option Nat := none
  junction : Option Nat := none
  lltransfer : Bool := false
  portLatched : Bool := true
deriving DecidableEq

/-- Modelled from the spec: Channel_Terminating of module.h (not in src/) —
a termination is pending when the terminate qualification is present
internally, externally, or on the unmerged delta (the spec's
should_terminate disjunction extended with the D dimension; module.c 4152
relies on the delta bit being visible before junction_transfer_delta
merges it). -/
def Channel_Terminating (t : Chan) : Bool :=
  t.state.iterminate || t.state.xterminate || t.delta.iterminate

/-- Modelled from the spec: Channel_Terminated of module.h (not in src/) —
a committed termination: the terminate qualification is present and the
Port side has been unlatched (spec §3 Lifecycle: termination clears
latches; junction_enter at 4555 spells the same conjunction out). -/
def Channel_Terminated (t : Chan) : Bool :=
  Channel_Terminating t && !t.portLatched

/-- Modelled from the spec: Channel_Attached of module.h (not in src/) —
the Channel has an owning Junction (spec §3: `junction` is NULL until
acquired). -/
def Channel_Attached (t : Chan) : Bool :=
  t.junction.isSome

/-- Modelled from the spec: Channel_ShouldTerminate of module.h (not in
src/) — the spec's should_terminate = I.terminate OR X.terminate. -/
def Channel_ShouldTerminate (t : Chan) : Bool :=
  t.state.iterminate || t.state.xterminate

/-- Modelled from the spec: Channel_ShouldTransfer of module.h (not in
src/) — the spec's transfer_ready = I.transfer AND X.transfer. -/
def Channel_ShouldTransfer (t : Chan) : Bool :=
  t.state.itransfer && t.state.xtransfer

/-- Modelled from the spec: Channel_HasResource of module.h (not in src/)
— a resource buffer is currently loaned. -/
def Channel_HasResource (t : Chan) : Bool :=
  t.resource.isSome

/-- Modelled from the spec: Channel_InCycle of module.h (not in src/) —
mid-cycle iff the transfer list head is non-NULL (module.c 1061
Junction_Cycling, and 3680: a NULL transfer list means the cycle is
over). -/
def Channel_InCycle (J : Chan) : Bool :=
  J.lltransfer

/-- Junction_Cycling (module.c 1061): the transfer list head is non-NULL. -/
def Junction_Cycling (J : Chan) : Bool :=
  J.lltransfer

/-! ## Delta flush: junction_transfer_delta (claim C1)

The transfer list is viewed as the list of channel ids linked from the
Junction head, most recently enqueued first; a Channel's `lltransfer`
records whether its next_transfer pointer is non-NULL.  The ring is viewed
backward: the list starts at J->prev and follows the prev pointers.  The
sentinel itself is not part of the list; its delta was cleared by
_junction_flow (module.c 4168) before the walk, so the walk always stops
no later than the end of the list. -/

/-- Junction_AddTransfer (module.c 1088-1094) on the list view: link the
Channel at the head of the transfer list iff its next_transfer pointer is
NULL. -/
def Junction_AddTransfer (tl : List Nat) (t : Chan) : List Nat × Chan :=
  if t.lltransfer then (tl, t)
  else (t.cid :: tl, { t with lltransfer := true })

/-- junction_transfer_delta (module.c 3792-3818): walk the ring backward
from the sentinel; while the visited Channel's delta word is non-zero,
merge the delta into the state word (Channel_StateMerge), clear the delta
(Channel_ClearDelta), and enqueue the Channel (Junction_AddTransfer).
Stop at the first Channel whose delta is zero. -/
def junction_transfer_delta : List Chan → List Nat → List Chan × List Nat
  | [], tl => ([], tl)
  | t :: rest, tl =>
    if t.delta = Word.zero then (t :: rest, tl)
    else
      let t1 : Chan := { t with state := t.state.merge t.delta, delta := Word.zero }
      let p := Junction_AddTransfer tl t1
      let q := junction_transfer_delta rest p.1
      (p.2 :: q.1, q.2)

/-- The effect of one delta-flush visit on a Channel: delta merged into
state, delta cleared, linked onto the transfer list. -/
def deltaFlush (c : Chan) : Chan :=
  { c with state := c.state.merge c.delta, delta := Word.zero, lltransfer := true }

/-! ## Run-transfers phase: the transfer branch of _junction_flow (claim C2) -/

/-- io_status_t: the three-valued result of a polarity transfer function
(flow = buffer exhausted without EAGAIN, stop = EAGAIN, terminate = EOF or
fatal errno). -/
inductive io_status_t
  | io_flow
  | io_stop
  | io_terminate
deriving DecidableEq

/-- The Channel_ShouldTransfer branch of the transfer loop of
_junction_flow (module.c 4276-4367), as a function of the status and byte
count returned by the polarity's transfer function: note tev_transfer
(4295), expand the window by the transferred bytes (4317), then map the
status (4322-4359): io_flow clears I.transfer, io_stop clears X.transfer,
io_terminate sets X.terminate, notes tev_terminate, and — unless
ctl_requeue is set — emits a kfilter_cancel change.  The second component
records whether that filter-delete change was emitted. -/
def _junction_flow_transfer (t : Chan) (stat : io_status_t) (xfer : Nat) :
    Chan × Bool :=
  let t1 : Chan := { t with events := { t.events with transfer := true } }
  let t2 : Chan := { t1 with windowStop := t1.windowStop + xfer }
  match stat with
  | .io_flow => ({ t2 with state := t2.state.clearI .transfer }, false)
  | .io_stop => ({ t2 with state := t2.state.clearX .transfer }, false)
  | .io_terminate =>
    ({ t2 with
        state := t2.state.setX .terminate,
        events := { t2.events with terminate := true } },
      !t2.state.requeue)

/-! ## Drain: _junction_flush and junction_finish_cycle (claim C3) -/

/-- The body of the _junction_flush loop (module.c 4429-4493) for one
Channel: clear next_transfer, collapse the window
(Channel_CollapseWindow), then — if tev_terminate fired — release the
resource and link, unlatch the Port and detach from the ring (the result
is none); otherwise release the resource when exhausted (neither the delta
nor the internal transfer qualification remains), and clear the events
word. -/
def flush_channel (t : Chan) : Option Chan :=
  if t.events.terminate = true then none
  else if t.delta.itransfer = false ∧ t.state.itransfer = false then
    some { t with lltransfer := false, windowStart := t.windowStop,
                  resource := none, events := {} }
  else
    some { t with lltransfer := false, windowStart := t.windowStop,
                  events := {} }

/-- One step of the drain walk: apply flush_channel to the ring member
carrying the given id (detached members drop out of the ring). -/
def junction_flush_step (ring : List Chan) (tid : Nat) : List Chan :=
  ring.filterMap (fun c => if c.cid = tid then flush_channel c else some c)

/-- _junction_flush (module.c 4422-4496): drain every Channel on the
transfer list, given the ring of attached Channels and the ids on the
transfer list. -/
def _junction_flush (ring : List Chan) (transfers : List Nat) : List Chan :=
  transfers.foldl junction_flush_step ring

/-- junction_finish_cycle (module.c 3675-3682): a NULL transfer list head
marks the cycle as over. -/
def junction_finish_cycle (J : Chan) : Chan :=
  { J with lltransfer := false }

/-! ## Resource acquisition: transit_acquire (claims C4 and C5) -/

/-- The ring operation transit_acquire may request:
Channel_EnqueueDelta (module.c 1070-1076) relocates the Channel behind the
sentinel and wakes the worker. -/
inductive RingAction
  | enqueueDelta
deriving DecidableEq

/-- The outcome of transit_acquire: the (possibly updated) Channel,
whether a ResourceError was raised, whether the resource buffer was
borrowed (PyObject_GetBuffer), and the ring operation performed. -/
structure AcqResult where
  chan : Chan
  resourceError : Bool
  borrowed : Bool
  ring : Option RingAction
deriving DecidableEq

/-- transit_acquire (module.c 1550-1614) with transit_can_acquire
(1521-1539): a terminating Channel returns success immediately without
touching anything; a Channel whose internal transfer qualification is
still set raises ResourceError before any mutation; otherwise the
resource is borrowed, the window cleared, and either the delta transfer
qualification is published and the Channel enqueued (attached case,
Channel_EnqueueDelta fires when the delta is non-zero and the Channel is
not its own Junction) or the internal qualification is set directly
(detached case). -/
def transit_acquire (t : Chan) (r : Nat) : AcqResult :=
  if Channel_Terminating t = true then
    { chan := t, resourceError := false, borrowed := false, ring := none }
  else if t.state.itransfer = true then
    { chan := t, resourceError := true, borrowed := false, ring := none }
  else
    let t1 : Chan := { t with resource := some r, windowStart := 0, windowStop := 0 }
    if Channel_Attached t1 = true then
      let t2 : Chan := { t1 with delta := t1.delta.setI .transfer }
      { chan := t2, resourceError := false, borrowed := true,
        ring :=
          if t2.delta = Word.zero ∨ t2.junction = some t2.cid then none
          else some .enqueueDelta }
    else
      { chan := { t1 with state := t1.state.setI .transfer },
        resourceError := false, borrowed := true, ring := none }

/-! ## Cycle entry: junction_enter (claim C6) -/

/-- The visible outcome of Junction.__enter__. -/
inductive EnterResult
  | terminatedError
  | runtimeError
  | entered
deriving DecidableEq

/-- The effect of _junction_flow (module.c 4142-4174) on the Junction's
own fields: junction_start_cycle (3672) makes the transfer list head
non-NULL; a terminating Junction runs _junction_terminate (4110-4137:
internal terminate qualification, port unlatched); a Junction whose
readiness descriptor went bad is re-created by junction_init (3625-3667,
taken as succeeding and re-latching the port); finally the Junction's own
delta is cleared (4168).  Ring members are handled by
junction_transfer_delta and the later phases, modelled separately. -/
def _junction_flow_self (J : Chan) : Chan :=
  let J1 : Chan := { J with lltransfer := true }
  let J2 : Chan :=
    if Channel_Terminating J1 = true then
      { J1 with state := J1.state.setI .terminate, portLatched := false }
    else if J1.portLatched = false then
      { J1 with portLatched := true }
    else J1
  { J2 with delta := Word.zero }

/-- junction_enter (module.c 4550-4572): a terminating Junction whose port
is unlatched signals the terminated error; a Junction already inside a
cycle signals RuntimeError; both error paths return before any state
change.  Otherwise the cycle's flow phase runs. -/
def junction_enter (J : Chan) : EnterResult × Chan :=
  if Channel_Terminating J = true ∧ J.portLatched = false then
    (.terminatedError, J)
  else if Channel_InCycle J = true then
    (.runtimeError, J)
  else
    (.entered, _junction_flow_self J)

/-! ## Wakeup: junction_fall and junction_force (claim C7) -/

/-- junction_fall (module.c 4061-4093): when called without force and the
Junction is not in the waiting state, return 0 without a syscall;
otherwise write the wakeup (EVFILT_USER trigger), returning -1 when the
kevent submission fails and 1 when it succeeds. -/
def junction_fall (willWait : Bool) (forceArg : Bool) (kevErr : Bool) : Int :=
  if forceArg = false ∧ willWait = false then 0
  else if kevErr = true then -1
  else 1

/-- junction_force (module.c 4095-4107): a terminating Junction returns
None; otherwise junction_fall is invoked with force set, and the result is
False exactly when junction_fall returned 0. -/
def junction_force (J : Chan) (willWait : Bool) (kevErr : Bool) : Option Bool :=
  if Channel_Terminating J = true then none
  else some (if junction_fall willWait true kevErr = 0 then false else true)

/-! ## Transfer view: transit_transfer (claim C8) -/

/-- transit_transfer (module.c 1645-1666): None unless a resource is held
and tev_transfer fired this cycle; otherwise the slice bounds
window.start/unit and window.stop/unit into the resource. -/
def transit_transfer (t : Chan) (unit : Nat) : Option (Nat × Nat) :=
  if Channel_HasResource t = false ∨ t.events.transfer = false then none
  else some (t.windowStart / unit, t.windowStop / unit)

/-! ## The transfer list as a pointer structure (claim C9)

Here next_transfer is modelled as the actual pointer heap: each id maps to
NULL or to the id it points at; the sentinel's own slot is the list head
(junction_start_cycle points it at the sentinel itself). -/

/-- The next_transfer pointers: none is NULL. -/
def Heap : Type := Nat → Option Nat

/-- Junction_AddTransfer (module.c 1088-1094) on the pointer heap: iff the
Channel's next_transfer is NULL, point it at the current head and point
the sentinel's slot at the Channel. -/
def Junction_AddTransfer_heap (h : Heap) (sid t : Nat) : Heap :=
  match h t with
  | some _ => h
  | none => fun x => if x = t then h sid else if x = sid then some t else h x

/-- The heap links the given list as a chain ending at the sentinel: each
element is not the sentinel and points at the next element (or at the
sentinel at the end). -/
def chainLinks (h : Heap) (sid : Nat) : List Nat → Prop
  | [] => True
  | c :: rest => c ≠ sid ∧ h c = some (rest.headD sid) ∧ chainLinks h sid rest

/-- The transfer-list representation invariant: the sentinel slot points
at the first element (or at the sentinel itself when empty), the list is
chained through the heap, no id repeats, and exactly the listed ids carry
a non-NULL next_transfer. -/
structure XferListInv (h : Heap) (sid : Nat) (l : List Nat) : Prop where
  head : h sid = some (l.headD sid)
  links : chainLinks h sid l
  nodup : l.Nodup
  members : ∀ c, c ≠ sid → ((h c).isSome ↔ c ∈ l)

/-! ## Channel acquisition by a Junction: junction_acquire (claim C10) -/

/-- The outcome of Junction.acquire(channel): the error cases, or success
carrying the updated Channel, the updated ring population, and whether the
Channel was inserted into the ring. -/
inductive JAcqResult
  | junctionTerminated
  | channelTerminated
  | crossJunction
  | acquired (t : Chan) (count : Nat) (inserted : Bool)
deriving DecidableEq

/-- True on the error outcomes of junction_acquire. -/
def isJAcqError : JAcqResult → Bool
  | .acquired _ _ _ => false
  | _ => true

/-- junction_acquire (module.c 3561-3622): a terminating Junction signals
the terminated error; a detached Channel is rejected when terminated and
otherwise gets the connect control delta, the Junction back-reference, a
ring insertion and a population increment; an attached Channel is rejected
when owned by a different Junction and otherwise falls through untouched. -/
def junction_acquire (J : Chan) (jid count : Nat) (t : Chan) : JAcqResult :=
  if Channel_Terminating J = true then .junctionTerminated
  else if Channel_Attached t = false then
    if Channel_Terminated t = true then .channelTerminated
    else
      .acquired
        { t with delta := { t.delta with connect := true }, junction := some jid }
        (count + 1) true
  else if t.junction ≠ some jid then .crossJunction
  else .acquired t count false

/-! ## Concrete states used by the witnesses and counterexamples -/

/-- A Channel with a freshly published transfer delta, off the transfer
list. -/
def wchanA : Chan :=
  { cid := 1, delta := { itransfer := true }, junction := some 0 }

/-- A second Channel with a pending terminate delta, off the transfer
list. -/
def wchanB : Chan :=
  { cid := 2, delta := { iterminate := true }, junction := some 0 }

/-- A quiescent Channel (zero delta): the delta-flush walk stops here. -/
def wchanZ : Chan :=
  { cid := 3, junction := some 0 }

/-- A transfer-ready Channel: both transfer qualifications set, a 16-byte
resource, a partly filled window. -/
def wchanReady : Chan :=
  { cid := 4, state := { itransfer := true, xtransfer := true },
    resource := some 16, windowStop := 4, junction := some 0 }

/-- A terminating Channel (external terminate qualification). -/
def wchanTerm : Chan :=
  { cid := 5, state := { xterminate := true }, resource := some 8,
    junction := some 0 }

/-- A Channel that observed a transfer this cycle (tev_transfer set). -/
def wchanEvent : Chan :=
  { cid := 6, state := { itransfer := true, xtransfer := true },
    events := { transfer := true }, resource := some 12, windowStart := 0,
    windowStop := 8, junction := some 0, lltransfer := true }

/-- A healthy idle Junction: not terminating, not cycling. -/
def wjuncIdle : Chan :=
  { cid := 0, junction := some 0 }

/-- A Junction mid-cycle, not terminating. -/
def wjuncCycling : Chan :=
  { cid := 0, junction := some 0, lltransfer := true }

/-- A Junction mid-cycle whose termination has been committed by
_junction_terminate: internal terminate qualification set and port
unlatched. -/
def wjuncTermCycling : Chan :=
  { cid := 0, state := { iterminate := true }, junction := some 0,
    lltransfer := true, portLatched := false }

/-- A terminating Junction (terminate delta published). -/
def wjuncTerm : Chan :=
  { cid := 0, delta := { iterminate := true }, junction := some 0 }

/-- A Channel already attached to Junction 0. -/
def wchanAttached : Chan :=
  { cid := 7, junction := some 0 }

/-- The pointer heap right after junction_start_cycle: the sentinel (id 0)
points at itself and every other next_transfer is NULL. -/
def wheap : Heap :=
  fun x => if x = 0 then some 0 else none

end IOCore

namespace IOCore

/-- Claim C1: during the delta-flush phase the backward ring walk merges
the delta of every Channel before the first zero-delta Channel into its
state, clears that delta, and prepends the Channel to the transfer list;
the Channels at and beyond the first zero-delta Channel are untouched and
not enqueued. -/
theorem junction_transfer_delta_flushes
    (pre post : List Chan) (tl : List Nat)
    (hpre : ∀ c ∈ pre, c.delta ≠ Word.zero ∧ c.lltransfer = false)
    (hpost : ∀ z, post.head? = some z → z.delta = Word.zero) :
    junction_transfer_delta (pre ++ post) tl
      = (pre.map deltaFlush ++ post, (pre.map Chan.cid).reverse ++ tl) := by
  induction pre generalizing tl with
  | nil =>
    cases post with
    | nil => simp [junction_transfer_delta]
    | cons z rest =>
      have hz : z.delta = Word.zero := hpost z rfl
      simp [junction_transfer_delta, hz]
  | cons c pre ih =>
    have hc := hpre c (List.mem_cons_self c pre)
    have hpre' : ∀ x ∈ pre, x.delta ≠ Word.zero ∧ x.lltransfer = false :=
      fun x hx => hpre x (List.mem_cons_of_mem c hx)
    simp only [List.cons_append, junction_transfer_delta, if_neg hc.1,
      Junction_AddTransfer, hc.2, Bool.false_eq_true, if_false]
    rw [List.append_eq, ih (c.cid :: tl) hpre']
    simp [deltaFlush, List.append_assoc]

/-- Witness for C1: a ring with two freshly modified Channels followed by a
quiescent one, flushed into an empty transfer list. -/
theorem junction_transfer_delta_flushes_witness :
    (∀ c ∈ [wchanA, wchanB], c.delta ≠ Word.zero ∧ c.lltransfer = false) ∧
    (∀ z, [wchanZ].head? = some z → z.delta = Word.zero) ∧
    junction_transfer_delta [wchanA, wchanB, wchanZ] []
      = ([deltaFlush wchanA, deltaFlush wchanB, wchanZ], [wchanB.cid, wchanA.cid]) := by
  refine ⟨by decide, by decide, ?_⟩
  have h := junction_transfer_delta_flushes [wchanA, wchanB] [wchanZ] []
    (by decide) (by decide)
  simpa using h

/-- Claim C2: in the run-transfers phase, for a transfer-ready,
non-terminating Channel, after the transfer function returns the window is
expanded by the returned byte count and the status is mapped exactly as:
io_flow clears I.transfer, io_stop clears X.transfer, io_terminate sets
X.terminate, records tev_terminate and emits the filter-delete change
unless ctl_requeue is set; no other qualification changes. -/
theorem flow_transfer_status_map (t : Chan) (stat : io_status_t) (xfer : Nat)
    (hready : Channel_ShouldTransfer t = true)
    (hterm : Channel_ShouldTerminate t = false) :
    (_junction_flow_transfer t stat xfer).1.windowStop = t.windowStop + xfer ∧
    (stat = .io_flow →
      (_junction_flow_transfer t stat xfer).1.state.itransfer = false ∧
      (_junction_flow_transfer t stat xfer).1.state.xtransfer = t.state.xtransfer ∧
      (_junction_flow_transfer t stat xfer).1.state.iterminate = t.state.iterminate ∧
      (_junction_flow_transfer t stat xfer).1.state.xterminate = t.state.xterminate ∧
      (_junction_flow_transfer t stat xfer).1.events.terminate = t.events.terminate ∧
      (_junction_flow_transfer t stat xfer).2 = false) ∧
    (stat = .io_stop →
      (_junction_flow_transfer t stat xfer).1.state.xtransfer = false ∧
      (_junction_flow_transfer t stat xfer).1.state.itransfer = t.state.itransfer ∧
      (_junction_flow_transfer t stat xfer).1.state.iterminate = t.state.iterminate ∧
      (_junction_flow_transfer t stat xfer).1.state.xterminate = t.state.xterminate ∧
      (_junction_flow_transfer t stat xfer).1.events.terminate = t.events.terminate ∧
      (_junction_flow_transfer t stat xfer).2 = false) ∧
    (stat = .io_terminate →
      (_junction_flow_transfer t stat xfer).1.state.xterminate = true ∧
      (_junction_flow_transfer t stat xfer).1.events.terminate = true ∧
      (_junction_flow_transfer t stat xfer).1.state.itransfer = t.state.itransfer ∧
      (_junction_flow_transfer t stat xfer).1.state.xtransfer = t.state.xtransfer ∧
      (_junction_flow_transfer t stat xfer).2 = (!t.state.requeue)) := by
  cases stat <;>
    simp [_junction_flow_transfer, Word.clearI, Word.clearX, Word.setX]

/-- Witness for C2: the io_terminate mapping on a transfer-ready Channel
with a 16-byte resource. -/
theorem flow_transfer_status_map_witness :
    Channel_ShouldTransfer wchanReady = true ∧
    Channel_ShouldTerminate wchanReady = false ∧
    (_junction_flow_transfer wchanReady .io_terminate 5).1.windowStop
      = wchanReady.windowStop + 5 :=
  ⟨by decide, by decide,
    (flow_transfer_status_map wchanReady .io_terminate 5 (by decide) (by decide)).1⟩

/-- Any Channel that survives flush_channel has a cleared events word and
a NULL next_transfer pointer. -/
theorem flush_channel_clears {c c' : Chan} (h : flush_channel c = some c') :
    c'.events = ({} : Events) ∧ c'.lltransfer = false := by
  unfold flush_channel at h
  split at h
  · exact Option.noConfusion h
  · split at h <;> (injection h with h; subst h; exact ⟨rfl, rfl⟩)

/-- Claim C3: after a completed cycle — every Channel on the transfer list
drained by _junction_flush and the cycle closed by junction_finish_cycle —
every Channel still attached to the Junction has a zero events word and a
NULL next_transfer pointer.  The hypothesis is the claim's own mid-cycle
invariant: at drain time a Channel carrying an event or a non-NULL
next_transfer is on the transfer list. -/
theorem junction_flush_drains (ring : List Chan) (ts : List Nat) (J : Chan)
    (hinv : ∀ c ∈ ring,
      ¬(c.events = ({} : Events) ∧ c.lltransfer = false) → c.cid ∈ ts) :
    (∀ c' ∈ _junction_flush ring ts,
      c'.events = ({} : Events) ∧ c'.lltransfer = false) ∧
    Junction_Cycling (junction_finish_cycle J) = false := by
  refine ⟨?_, rfl⟩
  induction ts generalizing ring with
  | nil =>
    intro c' hc'
    simp only [_junction_flush, List.foldl_nil] at hc'
    by_contra hG
    exact absurd (hinv c' hc' hG) (List.not_mem_nil _)
  | cons tid rest ih =>
    intro c' hc'
    simp only [_junction_flush, List.foldl_cons] at hc'
    refine ih (junction_flush_step ring tid) ?_ c' hc'
    intro c hc hG
    unfold junction_flush_step at hc
    rcases List.mem_filterMap.mp hc with ⟨c0, hc0, hf⟩
    by_cases he : c0.cid = tid
    · rw [if_pos he] at hf
      exact absurd (flush_channel_clears hf) hG
    · rw [if_neg he] at hf
      injection hf with hf
      subst hf
      rcases List.mem_cons.mp (hinv c0 hc0 hG) with h | h
      · exact absurd h he
      · exact h

/-- Witness for C3: a ring holding one Channel with a transfer event on
the list and one quiescent Channel, drained over the singleton transfer
list. -/
theorem junction_flush_drains_witness :
    (∀ c ∈ [wchanEvent, wchanZ],
      ¬(c.events = ({} : Events) ∧ c.lltransfer = false) →
        c.cid ∈ [wchanEvent.cid]) ∧
    ((∀ c' ∈ _junction_flush [wchanEvent, wchanZ] [wchanEvent.cid],
        c'.events = ({} : Events) ∧ c'.lltransfer = false) ∧
      Junction_Cycling (junction_finish_cycle wjuncCycling) = false) :=
  ⟨by decide,
    junction_flush_drains [wchanEvent, wchanZ] [wchanEvent.cid] wjuncCycling
      (by decide)⟩

/-- Claim C4: acquiring a resource on a non-terminating Channel whose
internal transfer qualification is still set fails with ResourceError and
leaves everything untouched: same Channel fields, no borrow, no ring
operation. -/
theorem transit_acquire_blocked (t : Chan) (r : Nat)
    (hterm : Channel_Terminating t = false)
    (hheld : t.state.itransfer = true) :
    transit_acquire t r
      = { chan := t, resourceError := true, borrowed := false, ring := none } := by
  simp [transit_acquire, hterm, hheld]

/-- Witness for C4: the transfer-ready Channel still holds its resource. -/
theorem transit_acquire_blocked_witness :
    Channel_Terminating wchanReady = false ∧
    wchanReady.state.itransfer = true ∧
    transit_acquire wchanReady 99
      = { chan := wchanReady, resourceError := true, borrowed := false,
          ring := none } :=
  ⟨by decide, by decide, transit_acquire_blocked wchanReady 99 (by decide) (by decide)⟩

/-- Claim C5: acquiring a resource on a terminating Channel is a no-op
that succeeds: no borrow, no window/state/delta change, no error, no ring
operation. -/
theorem transit_acquire_terminating_noop (t : Chan) (r : Nat)
    (hterm : Channel_Terminating t = true) :
    transit_acquire t r
      = { chan := t, resourceError := false, borrowed := false, ring := none } := by
  simp [transit_acquire, hterm]

/-- Witness for C5: a Channel with the external terminate qualification
set. -/
theorem transit_acquire_terminating_noop_witness :
    Channel_Terminating wchanTerm = true ∧
    transit_acquire wchanTerm 99
      = { chan := wchanTerm, resourceError := false, borrowed := false,
          ring := none } :=
  ⟨by decide, transit_acquire_terminating_noop wchanTerm 99 (by decide)⟩

/-- Counterexample for C6: a Junction that is mid-cycle but terminating
with its port unlatched does not signal RuntimeError — begin_cycle signals
the terminated-Channel error instead, so the claim as stated (RuntimeError
for every mid-cycle Junction) is false at this input. -/
theorem junction_enter_nested_counterexample :
    Channel_InCycle wjuncTermCycling = true ∧
    junction_enter wjuncTermCycling = (.terminatedError, wjuncTermCycling) := by
  decide

/-- Claim C6 (amended): calling begin_cycle on a Junction already inside a
cycle signals RuntimeError and leaves the Junction unchanged, unless the
Junction is terminating with its port unlatched, in which case the
terminated-Channel error is signalled instead (also without a state
change). -/
theorem junction_enter_nested (J : Chan)
    (hcyc : Channel_InCycle J = true)
    (hlive : ¬(Channel_Terminating J = true ∧ J.portLatched = false)) :
    junction_enter J = (.runtimeError, J) := by
  unfold junction_enter
  rw [if_neg hlive, if_pos hcyc]

/-- Witness for C6: a healthy mid-cycle Junction. -/
theorem junction_enter_nested_witness :
    Channel_InCycle wjuncCycling = true ∧
    junction_enter wjuncCycling = (.runtimeError, wjuncCycling) :=
  ⟨by decide, junction_enter_nested wjuncCycling (by decide) (by decide)⟩

/-- Counterexample for C7: a non-terminating Junction that is not in the
waiting state still gets `true` from force() — the claim's `false` branch
never happens, because junction_force calls junction_fall with the force
flag set, bypassing the will_wait test. -/
theorem junction_force_not_waiting_counterexample :
    Channel_Terminating wjuncIdle = false ∧
    junction_force wjuncIdle false false = some true := by
  decide

/-- Claim C7 (amended): for every non-terminating Junction, force()
returns true regardless of the waiting state (and regardless of the kevent
submission outcome): the wakeup is written unconditionally. -/
theorem junction_force_always_true (J : Chan) (willWait kevErr : Bool)
    (hterm : Channel_Terminating J = false) :
    junction_force J willWait kevErr = some true := by
  cases kevErr <;> simp [junction_force, junction_fall, hterm]

/-- Witness for C7: the idle Junction in the waiting state. -/
theorem junction_force_always_true_witness :
    Channel_Terminating wjuncIdle = false ∧
    junction_force wjuncIdle true false = some true :=
  ⟨by decide, junction_force_always_true wjuncIdle true false (by decide)⟩

/-- Claim C8: transfer() returns the slice bounds
[window.start/unit, window.stop/unit) of the acquired resource when
tev_transfer fired this cycle, and none when no transfer event fired. -/
theorem transit_transfer_view (t : Chan) (unit : Nat) :
    (Channel_HasResource t = true → t.events.transfer = true →
      transit_transfer t unit
        = some (t.windowStart / unit, t.windowStop / unit)) ∧
    (t.events.transfer = false → transit_transfer t unit = none) := by
  constructor
  · intro hr he
    simp [transit_transfer, hr, he]
  · intro he
    simp [transit_transfer, he]

/-- Witness for C8: the Channel that observed an 8-byte transfer this
cycle, with the octets unit size. -/
theorem transit_transfer_view_witness :
    Channel_HasResource wchanEvent = true ∧
    wchanEvent.events.transfer = true ∧
    transit_transfer wchanEvent 1
      = some (wchanEvent.windowStart / 1, wchanEvent.windowStop / 1) :=
  ⟨by decide, by decide, (transit_transfer_view wchanEvent 1).1 (by decide) (by decide)⟩

/-- A chain is preserved by a heap that agrees on its members. -/
theorem chainLinks_of_eq {h h' : Heap} {sid : Nat} {l : List Nat}
    (hl : chainLinks h sid l) (heq : ∀ c ∈ l, c ≠ sid → h' c = h c) :
    chainLinks h' sid l := by
  induction l with
  | nil => trivial
  | cons c rest ih =>
    obtain ⟨h1, h2, h3⟩ := hl
    refine ⟨h1, ?_, ih h3 (fun x hx hxs => heq x (List.mem_cons_of_mem c hx) hxs)⟩
    rw [heq c (List.mem_cons_self c rest) h1]
    exact h2

/-- Claim C9: Junction_AddTransfer links a Channel only when its
next_transfer pointer is NULL, so a Channel already on the transfer list
is left exactly as is, and enqueueing a new Channel preserves the list
representation — in particular the list stays duplicate-free and remains a
chain ending at the sentinel (no second entry, no cycle). -/
theorem add_transfer_no_duplicates (h : Heap) (sid t : Nat) (l : List Nat)
    (hinv : XferListInv h sid l) (ht : t ≠ sid) :
    (t ∈ l → Junction_AddTransfer_heap h sid t = h) ∧
    (t ∉ l → XferListInv (Junction_AddTransfer_heap h sid t) sid (t :: l)) := by
  constructor
  · intro hmem
    obtain ⟨v, hv⟩ := Option.isSome_iff_exists.mp ((hinv.members t ht).mpr hmem)
    simp [Junction_AddTransfer_heap, hv]
  · intro hno
    have hnone : h t = none := by
      cases hh : h t with
      | none => rfl
      | some v => exact absurd ((hinv.members t ht).mp (by simp [hh])) hno
    have hstep : Junction_AddTransfer_heap h sid t
        = fun x => if x = t then h sid else if x = sid then some t else h x := by
      simp [Junction_AddTransfer_heap, hnone]
    rw [hstep]
    refine ⟨?_, ⟨ht, ?_, ?_⟩, List.nodup_cons.mpr ⟨hno, hinv.nodup⟩, ?_⟩
    · have hs : sid ≠ t := Ne.symm ht
      simp [hs]
    · simpa using hinv.head
    · refine chainLinks_of_eq hinv.links ?_
      intro c hc hcs
      have hct : c ≠ t := fun e => hno (e ▸ hc)
      simp [hct, hcs]
    · intro c hc
      by_cases hct : c = t
      · subst hct
        simp [hinv.head]
      · simp only [hct, if_false, hc, List.mem_cons]
        rw [hinv.members c hc]
        simp

/-- Witness for C9: enqueueing Channel 1 onto the freshly started (empty)
transfer list of sentinel 0. -/
theorem add_transfer_no_duplicates_witness :
    XferListInv wheap 0 [] ∧
    (1 ∉ ([] : List Nat) →
      XferListInv (Junction_AddTransfer_heap wheap 0 1) 0 [1]) := by
  have hinv : XferListInv wheap 0 [] := by
    refine ⟨rfl, trivial, List.nodup_nil, ?_⟩
    intro c hc
    simp [wheap, hc]
  exact ⟨hinv, (add_transfer_no_duplicates wheap 0 1 [] hinv (by decide)).2⟩

/-- Counterexample for C10: when the Junction itself is terminating,
acquire raises even for a Channel already attached to that same Junction —
contradicting both the claim's "the second call raises no error" and its
"an error is raised only when" clause. -/
theorem junction_acquire_idempotent_counterexample :
    wchanAttached.junction = some 0 ∧
    Channel_Terminated wchanAttached = false ∧
    isJAcqError (junction_acquire wjuncTerm 0 3 wchanAttached) = true := by
  decide

/-- Claim C10 (amended): provided the Junction itself is not terminating,
acquire is idempotent for a Channel already attached to it — no error, the
Channel returned untouched, no ring insertion, no connect flag, no count
increment — and an error is raised exactly when the Channel is owned by a
different Junction or was terminated while detached. -/
theorem junction_acquire_idempotent (J : Chan) (jid count : Nat) (t : Chan)
    (hJ : Channel_Terminating J = false) :
    (t.junction = some jid → junction_acquire J jid count t = .acquired t count false) ∧
    (isJAcqError (junction_acquire J jid count t) = true ↔
      (t.junction ≠ none ∧ t.junction ≠ some jid) ∨
        (t.junction = none ∧ Channel_Terminated t = true)) := by
  cases hj : t.junction with
  | none =>
    refine ⟨fun h => absurd h (by simp [hj]), ?_⟩
    cases hT : Channel_Terminated t <;>
      simp [junction_acquire, Channel_Attached, hJ, hj, isJAcqError, hT]
  | some j =>
    by_cases hjj : j = jid
    · subst hjj
      refine ⟨fun _ => ?_, ?_⟩
      · simp [junction_acquire, Channel_Attached, hJ, hj]
      · simp [junction_acquire, Channel_Attached, hJ, hj, isJAcqError]
    · refine ⟨fun h => ?_, ?_⟩
      · exact absurd (Option.some.inj h) hjj
      · simp [junction_acquire, Channel_Attached, hJ, hj, hjj, isJAcqError]

/-- Witness for C10: re-acquiring the attached Channel on the healthy idle
Junction. -/
theorem junction_acquire_idempotent_witness :
    Channel_Terminating wjuncIdle = false ∧
    junction_acquire wjuncIdle 0 3 wchanAttached
      = .acquired wchanAttached 3 false :=
  ⟨by decide,
    (junction_acquire_idempotent wjuncIdle 0 3 wchanAttached (by decide)).1 rfl⟩

end IOCore
